import Mathlib

/-!
Shallow embedding of the ME218B two-PIC robot behavior core:
the SPI command-link protocol (Responder on the Follower PIC,
Poller on the Leader PIC), the command-driven behavior state
machine (MainLogicFSM), and the beacon frequency-estimation
engine (BeaconDetectService).  Machine integers are modelled as
Nat with explicit reduction mod 2^32 where 32-bit overflow can
occur in the C code.
-/

namespace ME218B

/-! ### Command byte codes (CommonDefinitions.h, Command_t) -/

def CMD_STOP : Nat := 0x00
def CMD_ROTATE_CW_90 : Nat := 0x02
def CMD_ROTATE_CW_45 : Nat := 0x03
def CMD_ROTATE_CCW_90 : Nat := 0x04
def CMD_ROTATE_CCW_45 : Nat := 0x05
def CMD_DRIVE_FWD_HALF : Nat := 0x08
def CMD_DRIVE_FWD_FULL : Nat := 0x09
def CMD_DRIVE_REV_HALF : Nat := 0x10
def CMD_DRIVE_REV_FULL : Nat := 0x11
def CMD_ALIGN_BEACON : Nat := 0x20
def CMD_SEARCH_TAPE : Nat := 0x40

/-! ### Motor / timer constants (CommonDefinitions.h) -/

def FORWARD : Nat := 0
def REVERSE : Nat := 1
def HALF_SPEED : Nat := 1500
def FULL_SPEED : Nat := 2000

def SIMPLE_MOVE_90_MS : Nat := 1500
def SIMPLE_MOVE_45_MS : Nat := 750
def BEACON_ALIGN_MS : Nat := 5000
def TAPE_SEARCH_MS : Nat := 10000

/-- Timer identifiers are opaque distinct numbers assigned by the ES
framework configuration; only their distinctness matters here. -/
def SIMPLE_MOVE_TIMER : Nat := 0

def TAPE_SEARCH_TIMER : Nat := 1

def BEACON_ALIGN_TIMER : Nat := 2

def COMMAND_SPI_TIMER : Nat := 3

def PRINT_FREQUENCY_TIMER : Nat := 4

/-- Command whitelist table `validCommandBytes` from CommonDefinitions.c. -/
def validCommandBytes : List Nat :=
  [0x00, 0x02, 0x03, 0x04, 0x05, 0x08, 0x09, 0x10, 0x11, 0x20, 0x40]

/-- Membership loop of `IsValidCommandByte` in CommandRetrieveService.c:
iterates over the table OR-ing an equality test into the result. -/
def IsValidCommandByte (commandByte : Nat) : Bool :=
  validCommandBytes.foldl (fun returnVal v => returnVal || (commandByte == v)) false

/-! ### Events (ES framework event records) -/

inductive EventT
  | ES_INIT
  | ES_NO_EVENT
  | ES_TIMEOUT
  | ES_NEW_KEY
  | ES_COMMAND_RETRIEVED
  | ES_BEACON_DETECTED
  | ES_TAPE_DETECTED
  | ES_NEW_SIGNAL_EDGE
  deriving DecidableEq, Repr

structure ESEvent where
  eventType : EventT
  eventParam : Nat
  deriving DecidableEq, Repr

/-! ### Motor actuation requests (DCMotorService.MotorCommandWrapper) -/

structure MotorCmd where
  speedLeft : Nat
  speedRight : Nat
  dirLeft : Nat
  dirRight : Nat
  deriving DecidableEq, Repr

/-- Call record of `MotorCommandWrapper(speedLeft, speedRight, dirLeft, dirRight)`. -/
def MotorCommandWrapper (speedLeft speedRight dirLeft dirRight : Nat) : MotorCmd :=
  ⟨speedLeft, speedRight, dirLeft, dirRight⟩

/-! ### MainLogicFSM (FollowerPIC.X/ProjectSource/MainLogicFSM.c) -/

inductive MainLogicState_t
  | Stopped
  | SimpleMoving
  | SearchingForTape
  | AligningWithBeacon
  deriving DecidableEq, Repr

/-- Sensor environment: values returned by `ReadBeaconInputPin` and
`ReadTapeSensorPin` (Ports.c) during one dispatch. -/
structure Env where
  beaconPin : Bool
  tapePin : Bool
  deriving DecidableEq, Repr

/-- Observable result of one `RunMainLogicFSM` dispatch: the next state,
the `MotorCommandWrapper` calls issued, the `ES_Timer_InitTimer` calls
issued (timer id, duration ms), and the events posted back to the FSM
via `PostMainLogicFSM`, each list in program order. -/
structure MLResult where
  state : MainLogicState_t
  motor : List MotorCmd
  timers : List (Nat × Nat)
  posted : List ESEvent
  deriving DecidableEq, Repr

/-- Helper `RotateCW90`: full-speed opposed-wheel spin plus the 90-degree
single-shot timer. -/
def RotateCW90 : List MotorCmd × List (Nat × Nat) :=
  ([MotorCommandWrapper FULL_SPEED FULL_SPEED FORWARD REVERSE],
   [(SIMPLE_MOVE_TIMER, SIMPLE_MOVE_90_MS)])

/-- Helper `RotateCW45`. -/
def RotateCW45 : List MotorCmd × List (Nat × Nat) :=
  ([MotorCommandWrapper FULL_SPEED FULL_SPEED FORWARD REVERSE],
   [(SIMPLE_MOVE_TIMER, SIMPLE_MOVE_45_MS)])

/-- Helper `RotateCCW90`. -/
def RotateCCW90 : List MotorCmd × List (Nat × Nat) :=
  ([MotorCommandWrapper FULL_SPEED FULL_SPEED REVERSE FORWARD],
   [(SIMPLE_MOVE_TIMER, SIMPLE_MOVE_90_MS)])

/-- Helper `RotateCCW45`. -/
def RotateCCW45 : List MotorCmd × List (Nat × Nat) :=
  ([MotorCommandWrapper FULL_SPEED FULL_SPEED REVERSE FORWARD],
   [(SIMPLE_MOVE_TIMER, SIMPLE_MOVE_45_MS)])

/-- Helper `DriveForwardHalf`: no timer is armed. -/
def DriveForwardHalf : List MotorCmd × List (Nat × Nat) :=
  ([MotorCommandWrapper HALF_SPEED HALF_SPEED FORWARD FORWARD], [])

/-- Helper `DriveForwardFull`: no timer is armed. -/
def DriveForwardFull : List MotorCmd × List (Nat × Nat) :=
  ([MotorCommandWrapper FULL_SPEED FULL_SPEED FORWARD FORWARD], [])

/-- Helper `DriveReverseHalf`: no timer is armed. -/
def DriveReverseHalf : List MotorCmd × List (Nat × Nat) :=
  ([MotorCommandWrapper HALF_SPEED HALF_SPEED REVERSE REVERSE], [])

/-- Helper `DriveReverseFull`: no timer is armed. -/
def DriveReverseFull : List MotorCmd × List (Nat × Nat) :=
  ([MotorCommandWrapper FULL_SPEED FULL_SPEED REVERSE REVERSE], [])

/-- Helper `SearchForTape` (MainLogicFSM.c lines 531-538): drives forward
at full speed; the `ES_Timer_InitTimer(TAPE_SEARCH_TIMER, TAPE_SEARCH_MS)`
call is commented out in the source, so no timer is armed. -/
def SearchForTape : List MotorCmd × List (Nat × Nat) :=
  ([MotorCommandWrapper FULL_SPEED FULL_SPEED FORWARD FORWARD], [])

/-- Helper `AlignWithBeacon` (MainLogicFSM.c lines 556-563): opposed-wheel
spin plus the alignment timeout timer. -/
def AlignWithBeacon : List MotorCmd × List (Nat × Nat) :=
  ([MotorCommandWrapper FULL_SPEED FULL_SPEED FORWARD REVERSE],
   [(BEACON_ALIGN_TIMER, BEACON_ALIGN_MS)])

/-- Result representing a dispatch with no effect. -/
def mlNoop (state : MainLogicState_t) : MLResult :=
  { state := state, motor := [], timers := [], posted := [] }

/-- One dispatch of `RunMainLogicFSM` (MainLogicFSM.c lines 135-295):
switch on `CurrentState`, then on the event. -/
def runMainLogicFSM (env : Env) (state : MainLogicState_t) (e : ESEvent) : MLResult :=
  match state with
  | .Stopped =>
    if e.eventType = EventT.ES_COMMAND_RETRIEVED then
      if e.eventParam = CMD_STOP then
        { state := .Stopped,
          motor := [MotorCommandWrapper 0 0 FORWARD FORWARD], timers := [], posted := [] }
      else if e.eventParam = CMD_ROTATE_CW_90 then
        { state := .SimpleMoving, motor := RotateCW90.1, timers := RotateCW90.2, posted := [] }
      else if e.eventParam = CMD_ROTATE_CW_45 then
        { state := .SimpleMoving, motor := RotateCW45.1, timers := RotateCW45.2, posted := [] }
      else if e.eventParam = CMD_ROTATE_CCW_90 then
        { state := .SimpleMoving, motor := RotateCCW90.1, timers := RotateCCW90.2, posted := [] }
      else if e.eventParam = CMD_ROTATE_CCW_45 then
        { state := .SimpleMoving, motor := RotateCCW45.1, timers := RotateCCW45.2, posted := [] }
      else if e.eventParam = CMD_DRIVE_FWD_HALF then
        { state := .SimpleMoving,
          motor := DriveForwardHalf.1, timers := DriveForwardHalf.2, posted := [] }
      else if e.eventParam = CMD_DRIVE_FWD_FULL then
        { state := .SimpleMoving,
          motor := DriveForwardFull.1, timers := DriveForwardFull.2, posted := [] }
      else if e.eventParam = CMD_DRIVE_REV_HALF then
        { state := .SimpleMoving,
          motor := DriveReverseHalf.1, timers := DriveReverseHalf.2, posted := [] }
      else if e.eventParam = CMD_DRIVE_REV_FULL then
        { state := .SimpleMoving,
          motor := DriveReverseFull.1, timers := DriveReverseFull.2, posted := [] }
      else if e.eventParam = CMD_ALIGN_BEACON then
        if env.beaconPin then
          { state := .AligningWithBeacon, motor := [], timers := [],
            posted := [⟨EventT.ES_BEACON_DETECTED, 0⟩] }
        else
          { state := .AligningWithBeacon,
            motor := AlignWithBeacon.1, timers := AlignWithBeacon.2, posted := [] }
      else if e.eventParam = CMD_SEARCH_TAPE then
        if env.tapePin then
          { state := .SearchingForTape, motor := [], timers := [],
            posted := [⟨EventT.ES_TAPE_DETECTED, 0⟩] }
        else
          { state := .SearchingForTape,
            motor := SearchForTape.1, timers := SearchForTape.2, posted := [] }
      else
        mlNoop .Stopped
    else
      mlNoop .Stopped
  | .SimpleMoving =>
    if e.eventType = EventT.ES_TIMEOUT ∧ e.eventParam = SIMPLE_MOVE_TIMER then
      { state := .Stopped,
        motor := [MotorCommandWrapper 0 0 FORWARD FORWARD], timers := [], posted := [] }
    else if e.eventType = EventT.ES_COMMAND_RETRIEVED then
      { state := .Stopped, motor := [], timers := [], posted := [e] }
    else
      mlNoop .SimpleMoving
  | .SearchingForTape =>
    if e.eventType = EventT.ES_TAPE_DETECTED then
      { state := .Stopped,
        motor := [MotorCommandWrapper 0 0 FORWARD FORWARD], timers := [], posted := [] }
    else if e.eventType = EventT.ES_TIMEOUT ∧ e.eventParam = TAPE_SEARCH_TIMER then
      { state := .Stopped,
        motor := [MotorCommandWrapper 0 0 FORWARD FORWARD], timers := [], posted := [] }
    else if e.eventType = EventT.ES_COMMAND_RETRIEVED then
      { state := .Stopped, motor := [], timers := [], posted := [e] }
    else
      mlNoop .SearchingForTape
  | .AligningWithBeacon =>
    if e.eventType = EventT.ES_BEACON_DETECTED then
      { state := .Stopped,
        motor := [MotorCommandWrapper 0 0 FORWARD FORWARD], timers := [], posted := [] }
    else if e.eventType = EventT.ES_TIMEOUT ∧ e.eventParam = BEACON_ALIGN_TIMER then
      { state := .Stopped,
        motor := [MotorCommandWrapper 0 0 FORWARD FORWARD], timers := [], posted := [] }
    else if e.eventType = EventT.ES_COMMAND_RETRIEVED then
      { state := .Stopped, motor := [], timers := [], posted := [e] }
    else
      mlNoop .AligningWithBeacon

/-! ### SPI Follower / Responder (FollowerPIC.X/ProjectSource/SPIFollowerFSM.c) -/

inductive SPIFollowerState_t
  | InitSPIFollowerState
  | WaitingForCommand
  | SendingNewFlag
  | SendingCommand
  deriving DecidableEq, Repr

/-- Module variables of SPIFollowerFSM.c: `CurrentState`, `CurrentCommand`,
`NewCommandFlag`. -/
structure FollowerVars where
  currentState : SPIFollowerState_t
  currentCommand : Nat
  newCommandFlag : Bool
  deriving DecidableEq, Repr

/-- Keyboard-to-command mapping of the `switch (key)` statement in
`RunSPIFollowerFSM`; unmatched keys leave the default `newCommand = 0x00`. -/
def keyToNewCommand (key : Char) : Nat :=
  if key = 'S' ∨ key = 's' then CMD_STOP
  else if key = 'W' ∨ key = 'w' then CMD_DRIVE_FWD_FULL
  else if key = 'Q' ∨ key = 'q' then CMD_DRIVE_FWD_HALF
  else if key = 'X' ∨ key = 'x' then CMD_DRIVE_REV_FULL
  else if key = 'Z' ∨ key = 'z' then CMD_DRIVE_REV_HALF
  else if key = 'D' ∨ key = 'd' then CMD_ROTATE_CW_90
  else if key = 'E' ∨ key = 'e' then CMD_ROTATE_CW_45
  else if key = 'A' ∨ key = 'a' then CMD_ROTATE_CCW_90
  else if key = 'R' ∨ key = 'r' then CMD_ROTATE_CCW_45
  else if key = 'B' ∨ key = 'b' then CMD_ALIGN_BEACON
  else if key = 'T' ∨ key = 't' then CMD_SEARCH_TAPE
  else 0x00

/-- Predicate distinguishing keys handled by a named `case` of the switch
from keys that fall into `default`. -/
def isMappedKey (key : Char) : Bool :=
  decide (key = 'S' ∨ key = 's') || decide (key = 'W' ∨ key = 'w') ||
  decide (key = 'Q' ∨ key = 'q') || decide (key = 'X' ∨ key = 'x') ||
  decide (key = 'Z' ∨ key = 'z') || decide (key = 'D' ∨ key = 'd') ||
  decide (key = 'E' ∨ key = 'e') || decide (key = 'A' ∨ key = 'a') ||
  decide (key = 'R' ∨ key = 'r') || decide (key = 'B' ∨ key = 'b') ||
  decide (key = 'T' ∨ key = 't')

/-- One dispatch of `RunSPIFollowerFSM` (SPIFollowerFSM.c lines 195-320).
The `ES_NEW_KEY` event parameter carries the key character code. -/
def runSPIFollowerFSM (s : FollowerVars) (e : ESEvent) : FollowerVars :=
  match s.currentState with
  | .InitSPIFollowerState =>
    if e.eventType = EventT.ES_INIT then { s with currentState := .WaitingForCommand } else s
  | .WaitingForCommand =>
    if e.eventType = EventT.ES_NEW_KEY then
      let key := Char.ofNat e.eventParam
      let newCommand := keyToNewCommand key
      if newCommand ≠ s.currentCommand ∨ key = 'S' ∨ key = 's' then
        { currentState := .SendingNewFlag, currentCommand := newCommand, newCommandFlag := true }
      else s
    else s
  | .SendingNewFlag => s
  | .SendingCommand => s

/-- One execution of `SPI_ISR` (SPIFollowerFSM.c lines 362-397): the reply
byte loaded into `SPI1BUF` for this query, and the updated module state. -/
def SPI_ISR (s : FollowerVars) : Nat × FollowerVars :=
  if s.currentState = SPIFollowerState_t.SendingNewFlag then
    (0xFF, { s with currentState := .SendingCommand })
  else if s.currentState = SPIFollowerState_t.SendingCommand then
    (s.currentCommand, { s with currentState := .WaitingForCommand, newCommandFlag := false })
  else
    (s.currentCommand, s)

/-- Iterated responder polls: state after `n` consecutive `SPI_ISR` queries. -/
def iterISR (s : FollowerVars) : Nat → FollowerVars
  | 0 => s
  | n + 1 => (SPI_ISR (iterISR s n)).2

/-! ### Poller (LeaderPIC.X/ProjectSource/CommandRetrieveService.c) -/

/-- Module variables of CommandRetrieveService.c: `SawNewCommandFlag` and
`LastCommand`. -/
structure PollerVars where
  sawNewCommandFlag : Bool
  lastCommand : Nat
  deriving DecidableEq, Repr

/-- One `ES_TIMEOUT(COMMAND_SPI_TIMER)` poll body of
`RunCommandRetrieveService` (lines 220-248), applied to the byte read from
the follower.  Returns the updated module state and the events posted to
`MainLogicFSM`.  In the armed-latch branch the code first conditionally
forwards and writes `LastCommand = commandByte`, then unconditionally
clears the latch and writes `LastCommand = 0xFF` (lines 243-244), so the
post-state `lastCommand` is `0xFF` on every armed-latch path. -/
def RunCommandRetrievePoll (s : PollerVars) (commandByte : Nat) : PollerVars × List ESEvent :=
  if commandByte = 0xFF then
    ({ s with sawNewCommandFlag := true }, [])
  else if s.sawNewCommandFlag then
    if IsValidCommandByte commandByte then
      if commandByte ≠ s.lastCommand then
        ({ sawNewCommandFlag := false, lastCommand := 0xFF },
         [⟨EventT.ES_COMMAND_RETRIEVED, commandByte⟩])
      else
        ({ sawNewCommandFlag := false, lastCommand := 0xFF }, [])
    else
      ({ sawNewCommandFlag := false, lastCommand := 0xFF }, [])
  else
    (s, [])

/-! ### Beacon timing engine (LeaderPIC.X/ProjectSource/BeaconDetectService.c) -/

def PBCLK_FREQ : Nat := 20000000
def TIMER_PRESCALE : Nat := 256
def IC_PRESCALE : Nat := 16
def TARGET_BEACON_FREQ : Nat := 1427
def BEACON_FREQ_TOLERANCE : Nat := 50
def TIMER_MAX_PERIOD : Nat := 0xFFFFFFFF
def INVALID_TIME : Nat := 0xFFFFFFFF
def UINT32_MOD : Nat := 2 ^ 32

/-- Frequency computation `CalculateFrequency` (BeaconDetectService.c lines
506-522).  The product `timeLapse * IC_PRESCALE` is 32-bit arithmetic in C,
hence the explicit mod; Nat division by zero yields 0 in this model, where
the C division is undefined behavior when the wrapped product is 0. -/
def CalculateFrequency (timeLapse : Nat) : Nat :=
  if timeLapse = 0 then 0
  else
    let timerClock := PBCLK_FREQ / TIMER_PRESCALE
    timerClock / ((timeLapse * IC_PRESCALE) % UINT32_MOD)

/-- Tolerance-band test of `RunBeaconDetectService` (lines 262-263). -/
def inBeaconBand (frequency : Nat) : Bool :=
  decide (TARGET_BEACON_FREQ - BEACON_FREQ_TOLERANCE ≤ frequency ∧
          frequency ≤ TARGET_BEACON_FREQ + BEACON_FREQ_TOLERANCE)

/-- Module timing variables of BeaconDetectService.c: `LastCapturedTime`,
`SmoothedTimeLapse`, `FirstSample`. -/
structure BeaconVars where
  lastCapturedTime : Nat
  smoothedTimeLapse : Nat
  firstSample : Bool
  deriving DecidableEq, Repr

/-- Two-branch wraparound subtraction of the `ES_NEW_SIGNAL_EDGE` handler
(lines 236-246): plain difference when current is not below previous, else
`(TIMER_MAX_PERIOD - previous) + current + 1`. -/
def twoBranchTimeLapse (currentCapturedTime lastCapturedTime : Nat) : Nat :=
  if lastCapturedTime ≤ currentCapturedTime then
    currentCapturedTime - lastCapturedTime
  else
    (TIMER_MAX_PERIOD - lastCapturedTime) + currentCapturedTime + 1

/-- Smoothing update (lines 248-256): seed with the raw lapse on the first
sample, else `(timeLapse + 5 * smoothed) / 6` computed in 32-bit
arithmetic. -/
def smoothUpdate (firstSample : Bool) (smoothed timeLapse : Nat) : Nat :=
  if firstSample then timeLapse
  else ((timeLapse + 5 * smoothed) % UINT32_MOD) / 6

/-- One `ES_NEW_SIGNAL_EDGE` dispatch of `RunBeaconDetectService` (lines
224-276) given the latched `CapturedTime`: updates the timing variables and
returns the `ES_BEACON_DETECTED` events posted to `MainLogicFSM`. -/
def RunBeaconEdge (s : BeaconVars) (currentCapturedTime : Nat) : BeaconVars × List ESEvent :=
  if s.lastCapturedTime ≠ INVALID_TIME then
    let timeLapse := twoBranchTimeLapse currentCapturedTime s.lastCapturedTime
    let smoothed := smoothUpdate s.firstSample s.smoothedTimeLapse timeLapse
    let frequency := CalculateFrequency smoothed
    let evs : List ESEvent :=
      if inBeaconBand frequency then [⟨EventT.ES_BEACON_DETECTED, frequency⟩] else []
    ({ lastCapturedTime := currentCapturedTime, smoothedTimeLapse := smoothed,
       firstSample := false }, evs)
  else
    ({ s with lastCapturedTime := currentCapturedTime }, [])

/-! ### Dispatcher and timer scheduler for the behavior machine -/

/-- Modelled from the spec: the ES framework event dispatcher and timer
service that host `MainLogicFSM` are not part of the repository sources.
Per spec section 5 the dispatcher is a single-threaded run-to-completion
queue processed in arrival order, per-action timers are single-shot
deadlines with no explicit cancel, and a timer expiry posts an
`ES_TIMEOUT` event carrying the timer identity.  The `occ` field and the
`ArmedBy` fields are ghost instrumentation: `occ` counts state occupancies
(bumped on every state change) and each `ArmedBy` records the occupancy
current when that timer was last armed. -/
structure SchedState where
  ml : MainLogicState_t
  occ : Nat
  simpleDeadline : Option Nat
  tapeDeadline : Option Nat
  beaconDeadline : Option Nat
  simpleArmedBy : Option Nat
  tapeArmedBy : Option Nat
  beaconArmedBy : Option Nat
  now : Nat
  queue : List ESEvent
  deriving DecidableEq, Repr

/-- Scheduler actions: an external event arrival, one dispatch of the head
event, or the expiry of one armed timer (advancing time to its deadline). -/
inductive SchedStep
  | arrive (e : ESEvent)
  | dispatch
  | expireSimple
  | expireTape
  | expireBeacon
  deriving DecidableEq, Repr

/-- Record one `ES_Timer_InitTimer` call: set the deadline and remember the
arming occupancy. -/
def applyArm (now occ : Nat) (arm : Nat × Nat) (s : SchedState) : SchedState :=
  if arm.1 = SIMPLE_MOVE_TIMER then
    { s with simpleDeadline := some (now + arm.2), simpleArmedBy := some occ }
  else if arm.1 = TAPE_SEARCH_TIMER then
    { s with tapeDeadline := some (now + arm.2), tapeArmedBy := some occ }
  else if arm.1 = BEACON_ALIGN_TIMER then
    { s with beaconDeadline := some (now + arm.2), beaconArmedBy := some occ }
  else s

/-- One scheduler transition. -/
def schedStep (env : Env) (st : SchedState) (step : SchedStep) : SchedState :=
  match step with
  | .arrive e => { st with queue := st.queue ++ [e] }
  | .dispatch =>
    match st.queue with
    | [] => st
    | e :: rest =>
      let r := runMainLogicFSM env st.ml e
      let occ2 := if r.state = st.ml then st.occ else st.occ + 1
      let st2 := { st with ml := r.state, occ := occ2, queue := rest ++ r.posted }
      r.timers.foldl (fun acc arm => applyArm st.now occ2 arm acc) st2
  | .expireSimple =>
    match st.simpleDeadline with
    | none => st
    | some d =>
      { st with
        now := max st.now d
        simpleDeadline := none
        queue := st.queue ++ [⟨EventT.ES_TIMEOUT, SIMPLE_MOVE_TIMER⟩] }
  | .expireTape =>
    match st.tapeDeadline with
    | none => st
    | some d =>
      { st with
        now := max st.now d
        tapeDeadline := none
        queue := st.queue ++ [⟨EventT.ES_TIMEOUT, TAPE_SEARCH_TIMER⟩] }
  | .expireBeacon =>
    match st.beaconDeadline with
    | none => st
    | some d =>
      { st with
        now := max st.now d
        beaconDeadline := none
        queue := st.queue ++ [⟨EventT.ES_TIMEOUT, BEACON_ALIGN_TIMER⟩] }

/-- Run a list of scheduler actions from a start state. -/
def runSched (env : Env) (st : SchedState) (steps : List SchedStep) : SchedState :=
  steps.foldl (schedStep env) st

/-- Reset state: `Stopped`, no timers armed, empty queue. -/
def initSched : SchedState :=
  { ml := .Stopped, occ := 0,
    simpleDeadline := none, tapeDeadline := none, beaconDeadline := none,
    simpleArmedBy := none, tapeArmedBy := none, beaconArmedBy := none,
    now := 0, queue := [] }

/-- Ghost lookup: which occupancy last armed the timer with this
`ES_TIMEOUT` parameter. -/
def armedByOf (st : SchedState) (timerParam : Nat) : Option Nat :=
  if timerParam = SIMPLE_MOVE_TIMER then st.simpleArmedBy
  else if timerParam = TAPE_SEARCH_TIMER then st.tapeArmedBy
  else if timerParam = BEACON_ALIGN_TIMER then st.beaconArmedBy
  else none

/-- The behavior state in which each per-action timer timeout is handled by
`RunMainLogicFSM`. -/
def timerHandlerState (timerParam : Nat) : Option MainLogicState_t :=
  if timerParam = SIMPLE_MOVE_TIMER then some .SimpleMoving
  else if timerParam = TAPE_SEARCH_TIMER then some .SearchingForTape
  else if timerParam = BEACON_ALIGN_TIMER then some .AligningWithBeacon
  else none

/-! ### Formalised claim statements used for refutations -/

/-- Claim C6 as stated: in every reachable scheduler state whose next queued
event is the expiry of a timer armed during an occupancy that has since been
exited, dispatching that expiry changes neither the behavior state nor the
actuation. -/
def C6ClaimStatement : Prop :=
  ∀ (env : Env) (steps : List SchedStep) (e : ESEvent) (rest : List ESEvent) (o : Nat),
    (runSched env initSched steps).queue = e :: rest →
    e.eventType = EventT.ES_TIMEOUT →
    armedByOf (runSched env initSched steps) e.eventParam = some o →
    o ≠ (runSched env initSched steps).occ →
    (runMainLogicFSM env (runSched env initSched steps).ml e).state =
      (runSched env initSched steps).ml ∧
    (runMainLogicFSM env (runSched env initSched steps).ml e).motor = []

/-- Claim C4 as stated: a 0xFF reply only arms the latch; an armed-latch
valid byte differing from the last delivered value is forwarded and
remembered as last-delivered; an armed-latch invalid byte is discarded;
the latch is cleared unconditionally after an armed-latch byte. -/
def C4ClaimStatement : Prop :=
  ∀ (s : PollerVars) (b : Nat),
    (b = 0xFF →
      RunCommandRetrievePoll s b = ({ s with sawNewCommandFlag := true }, [])) ∧
    (b ≠ 0xFF → s.sawNewCommandFlag = true → IsValidCommandByte b = true →
      b ≠ s.lastCommand →
      (RunCommandRetrievePoll s b).2 = [⟨EventT.ES_COMMAND_RETRIEVED, b⟩] ∧
      (RunCommandRetrievePoll s b).1.lastCommand = b ∧
      (RunCommandRetrievePoll s b).1.sawNewCommandFlag = false) ∧
    (b ≠ 0xFF → s.sawNewCommandFlag = true → IsValidCommandByte b = false →
      (RunCommandRetrievePoll s b).2 = [] ∧
      (RunCommandRetrievePoll s b).1.sawNewCommandFlag = false)

/-- Claim C7 as stated: the two-branch subtraction equals the mod-2^32
difference for all 32-bit timestamps, the first sample seeds the smoothed
interval with the raw delta, and every later sample updates it to
`(delta + 5 * previous) / 6` (stated without 32-bit reduction). -/
def C7ClaimStatement : Prop :=
  (∀ cur prev : Nat, cur < UINT32_MOD → prev < UINT32_MOD →
    twoBranchTimeLapse cur prev = (cur + (UINT32_MOD - prev)) % UINT32_MOD) ∧
  (∀ smoothed timeLapse : Nat, smoothUpdate true smoothed timeLapse = timeLapse) ∧
  (∀ smoothed timeLapse : Nat,
    smoothUpdate false smoothed timeLapse = (timeLapse + 5 * smoothed) / 6)

/-! ### Helper lemmas -/

/-- A byte accepted by the whitelist loop is never the 0xFF flag byte. -/
theorem valid_byte_ne_flag {b : Nat} (h : IsValidCommandByte b = true) : b ≠ 0xFF := by
  intro hb
  subst hb
  exact absurd h (by decide)

/-- On any armed-latch non-flag byte, the poll leaves the latch cleared and
the last-delivered record equal to 0xFF, whatever the byte was. -/
theorem poll_armed_state (s : PollerVars) (b : Nat) (hb : b ≠ 0xFF)
    (hflag : s.sawNewCommandFlag = true) :
    (RunCommandRetrievePoll s b).1 = ⟨false, 0xFF⟩ := by
  simp only [RunCommandRetrievePoll, if_neg hb, hflag, if_true]
  split_ifs <;> rfl

/-! ### Claim theorems -/

/-- Claim C5: each poll query advances the Responder by exactly one step and
produces exactly one reply byte: in `SendingNewFlag` it replies 0xFF (never
a valid command byte) and moves to `SendingCommand`; in `SendingCommand` it
replies the pending command byte and moves to `WaitingForCommand`; in
`WaitingForCommand` it replies the (last-delivered) command byte and stays,
so arbitrarily many repeated polls keep returning the same payload byte. -/
theorem C5_responder_protocol (f : FollowerVars) :
    (f.currentState = SPIFollowerState_t.SendingNewFlag →
      SPI_ISR f = (0xFF, { f with currentState := SPIFollowerState_t.SendingCommand })) ∧
    (f.currentState = SPIFollowerState_t.SendingCommand →
      SPI_ISR f = (f.currentCommand,
        { f with
          currentState := SPIFollowerState_t.WaitingForCommand
          newCommandFlag := false })) ∧
    (f.currentState = SPIFollowerState_t.WaitingForCommand →
      ∀ n : Nat, iterISR f n = f ∧ (SPI_ISR (iterISR f n)).1 = f.currentCommand) ∧
    IsValidCommandByte 0xFF = false := by
  refine ⟨?_, ?_, ?_, by decide⟩
  · intro h
    simp [SPI_ISR, h]
  · intro h
    simp [SPI_ISR, h]
  · intro h
    have hstep : SPI_ISR f = (f.currentCommand, f) := by
      simp [SPI_ISR, h]
    intro n
    induction n with
    | zero => exact ⟨rfl, by rw [iterISR, hstep]⟩
    | succ n ih =>
      have h2 : iterISR f (n + 1) = f := by
        rw [iterISR, ih.1, hstep]
      exact ⟨h2, by rw [h2, hstep]⟩

/-- Witness for C5 at concrete responder states. -/
theorem C5_responder_protocol_witness :
    SPI_ISR ⟨SPIFollowerState_t.SendingNewFlag, 9, true⟩ =
      (255, ⟨SPIFollowerState_t.SendingCommand, 9, true⟩) ∧
    iterISR ⟨SPIFollowerState_t.WaitingForCommand, 9, false⟩ 5 =
      ⟨SPIFollowerState_t.WaitingForCommand, 9, false⟩ := by
  constructor
  · exact (C5_responder_protocol ⟨SPIFollowerState_t.SendingNewFlag, 9, true⟩).1 rfl
  · exact ((C5_responder_protocol
      ⟨SPIFollowerState_t.WaitingForCommand, 9, false⟩).2.2.1 rfl 5).1

/-- Claim C9: after the Poller consumes any payload byte following a flag,
its last-delivered record is 0xFF; since 0xFF is never whitelisted, every
valid payload consumed after a subsequent flag is forwarded, even one equal
to the command delivered in the previous handshake. -/
theorem C9_last_delivered_reset (s : PollerVars) (b : Nat)
    (hflag : s.sawNewCommandFlag = true) (hb : b ≠ 0xFF) :
    (RunCommandRetrievePoll s b).1.lastCommand = 0xFF ∧
    ∀ c : Nat, IsValidCommandByte c = true →
      (RunCommandRetrievePoll
        (RunCommandRetrievePoll (RunCommandRetrievePoll s b).1 0xFF).1 c).2 =
      [⟨EventT.ES_COMMAND_RETRIEVED, c⟩] := by
  have h1 : (RunCommandRetrievePoll s b).1 = ⟨false, 0xFF⟩ := poll_armed_state s b hb hflag
  refine ⟨by rw [h1], ?_⟩
  intro c hc
  have h2 : (RunCommandRetrievePoll (⟨false, 0xFF⟩ : PollerVars) 0xFF).1 =
      ⟨true, 0xFF⟩ := rfl
  rw [h1, h2]
  have hcne : c ≠ 0xFF := valid_byte_ne_flag hc
  simp only [RunCommandRetrievePoll, if_neg hcne, hc]
  simp [hcne]

/-- Witness for C9: a concrete handshake followed by a repeat of the same
command byte 0x09, which is forwarded again. -/
theorem C9_last_delivered_reset_witness :
    (RunCommandRetrievePoll ⟨true, 0⟩ 9).1.lastCommand = 255 ∧
    (RunCommandRetrievePoll
      (RunCommandRetrievePoll (RunCommandRetrievePoll ⟨true, 0⟩ 9).1 255).1 9).2 =
      [⟨EventT.ES_COMMAND_RETRIEVED, 9⟩] := by
  have h := C9_last_delivered_reset ⟨true, 0⟩ 9 rfl (by decide)
  exact ⟨h.1, h.2 9 (by decide)⟩

/-- Claim C4 fails as stated: at latch-armed state with last-delivered 0x00,
payload 0x09 is forwarded but the post-state last-delivered record is 0xFF,
not 0x09. -/
theorem C4_counterexample : ¬ C4ClaimStatement := by
  intro h
  have h2 := ((h ⟨true, 0⟩ 9).2.1 (by decide) rfl (by decide) (by decide)).2.1
  have h3 : (RunCommandRetrievePoll ⟨true, 0⟩ 9).1.lastCommand = 255 := by decide
  exact absurd (h3.symm.trans h2) (by decide)

/-- Claim C4 (amended): a 0xFF reply only arms the latch; with the latch
armed, a valid byte differing from the last delivered value is forwarded
and an invalid byte is discarded without forwarding; in every armed-latch
case the latch is cleared and the last-delivered record is reset to 0xFF
(rather than left at the forwarded byte); with the latch clear, a non-flag
byte changes nothing. -/
theorem C4_amended_poller_step (s : PollerVars) (b : Nat) :
    (b = 0xFF →
      RunCommandRetrievePoll s b = ({ s with sawNewCommandFlag := true }, [])) ∧
    (b ≠ 0xFF → s.sawNewCommandFlag = true → IsValidCommandByte b = true →
      b ≠ s.lastCommand →
      RunCommandRetrievePoll s b =
        (⟨false, 0xFF⟩, [⟨EventT.ES_COMMAND_RETRIEVED, b⟩])) ∧
    (b ≠ 0xFF → s.sawNewCommandFlag = true → IsValidCommandByte b = false →
      RunCommandRetrievePoll s b = (⟨false, 0xFF⟩, [])) ∧
    (b ≠ 0xFF → s.sawNewCommandFlag = false →
      RunCommandRetrievePoll s b = (s, [])) := by
  refine ⟨?_, ?_, ?_, ?_⟩
  · intro hb
    simp [RunCommandRetrievePoll, hb]
  · intro hb hflag hvalid hne
    simp [RunCommandRetrievePoll, hb, hflag, hvalid, hne]
  · intro hb hflag hvalid
    simp [RunCommandRetrievePoll, hb, hflag, hvalid]
  · intro hb hflag
    simp [RunCommandRetrievePoll, hb, hflag]

/-- Witness for the amended C4 at concrete poller states. -/
theorem C4_amended_poller_step_witness :
    RunCommandRetrievePoll ⟨false, 3⟩ 255 = (⟨true, 3⟩, []) ∧
    RunCommandRetrievePoll ⟨true, 0⟩ 9 =
      (⟨false, 255⟩, [⟨EventT.ES_COMMAND_RETRIEVED, 9⟩]) ∧
    RunCommandRetrievePoll ⟨true, 0⟩ 7 = (⟨false, 255⟩, []) ∧
    RunCommandRetrievePoll ⟨false, 3⟩ 9 = (⟨false, 3⟩, []) := by
  refine ⟨?_, ?_, ?_, ?_⟩
  · exact (C4_amended_poller_step ⟨false, 3⟩ 255).1 rfl
  · exact (C4_amended_poller_step ⟨true, 0⟩ 9).2.1 (by decide) rfl (by decide) (by decide)
  · exact (C4_amended_poller_step ⟨true, 0⟩ 7).2.2.1 (by decide) rfl (by decide)
  · exact (C4_amended_poller_step ⟨false, 3⟩ 9).2.2.2 (by decide) rfl

/-- Claim C10: an unmapped keystroke received in `WaitingForCommand` while
the held command is nonzero overwrites the held command with the stop code
0x00, raises the new-command flag, and enters `SendingNewFlag`. -/
theorem C10_unmapped_key_is_stop (cmd : Nat) (flag : Bool) (n : Nat)
    (hkey : isMappedKey (Char.ofNat n) = false) (hcmd : cmd ≠ 0x00) :
    runSPIFollowerFSM ⟨SPIFollowerState_t.WaitingForCommand, cmd, flag⟩
      ⟨EventT.ES_NEW_KEY, n⟩ =
    ⟨SPIFollowerState_t.SendingNewFlag, 0x00, true⟩ := by
  simp only [isMappedKey, Bool.or_eq_false_iff, decide_eq_false_iff_not] at hkey
  obtain ⟨⟨⟨⟨⟨⟨⟨⟨⟨⟨h1, h2⟩, h3⟩, h4⟩, h5⟩, h6⟩, h7⟩, h8⟩, h9⟩, h10⟩, h11⟩ := hkey
  have hk : keyToNewCommand (Char.ofNat n) = 0 := by
    simp only [keyToNewCommand, if_neg h1, if_neg h2, if_neg h3, if_neg h4, if_neg h5,
      if_neg h6, if_neg h7, if_neg h8, if_neg h9, if_neg h10, if_neg h11]
  simp only [runSPIFollowerFSM, hk]
  rw [if_pos trivial, if_pos (Or.inl (Ne.symm hcmd))]

/-- Witness for C10: key code 107 (lower-case k) with held command 0x09. -/
theorem C10_unmapped_key_is_stop_witness :
    runSPIFollowerFSM ⟨SPIFollowerState_t.WaitingForCommand, 9, false⟩
      ⟨EventT.ES_NEW_KEY, 107⟩ =
    ⟨SPIFollowerState_t.SendingNewFlag, 0, true⟩ :=
  C10_unmapped_key_is_stop 9 false 107 (by decide) (by decide)

/-- Claim C1: with the Responder holding newly queued command 0x09 and the
Poller latch clear with a different last-delivered value, the first poll
replies 0xFF and forwards nothing, the second poll replies 0x09 and forwards
exactly one `ES_COMMAND_RETRIEVED` event with value 0x09, a third poll
forwards nothing more, and dispatching that event in `Stopped` issues the
full-speed forward actuation, enters `SimpleMoving`, and arms no timer. -/
theorem C1_fwd_full_scenario (flag : Bool) (p : PollerVars) (env : Env)
    (_hlatch : p.sawNewCommandFlag = false)
    (hlast : p.lastCommand ≠ CMD_DRIVE_FWD_FULL) :
    let f0 : FollowerVars := ⟨SPIFollowerState_t.SendingNewFlag, CMD_DRIVE_FWD_FULL, flag⟩
    let q1 := SPI_ISR f0
    let p1 := RunCommandRetrievePoll p q1.1
    let q2 := SPI_ISR q1.2
    let p2 := RunCommandRetrievePoll p1.1 q2.1
    let q3 := SPI_ISR q2.2
    let p3 := RunCommandRetrievePoll p2.1 q3.1
    let r := runMainLogicFSM env MainLogicState_t.Stopped
      ⟨EventT.ES_COMMAND_RETRIEVED, CMD_DRIVE_FWD_FULL⟩
    q1.1 = 0xFF ∧ p1.2 = [] ∧
    q2.1 = CMD_DRIVE_FWD_FULL ∧
    p2.2 = [⟨EventT.ES_COMMAND_RETRIEVED, CMD_DRIVE_FWD_FULL⟩] ∧
    p3.2 = [] ∧
    r.state = MainLogicState_t.SimpleMoving ∧
    r.motor = [MotorCommandWrapper FULL_SPEED FULL_SPEED FORWARD FORWARD] ∧
    r.timers = [] := by
  intro f0 q1 p1 q2 p2 q3 p3 r
  have hq1 : q1 = (0xFF, ⟨SPIFollowerState_t.SendingCommand, CMD_DRIVE_FWD_FULL, flag⟩) := rfl
  have hp1 : p1 = ({ p with sawNewCommandFlag := true }, []) := rfl
  have hq2 : q2 = (CMD_DRIVE_FWD_FULL,
      ⟨SPIFollowerState_t.WaitingForCommand, CMD_DRIVE_FWD_FULL, false⟩) := rfl
  have hlast9 : (9 : Nat) ≠ p.lastCommand := fun hc => hlast hc.symm
  have hp2 : p2 = (⟨false, 0xFF⟩,
      [⟨EventT.ES_COMMAND_RETRIEVED, CMD_DRIVE_FWD_FULL⟩]) := by
    show RunCommandRetrievePoll { p with sawNewCommandFlag := true } 9 = _
    simp [RunCommandRetrievePoll, hlast9]
    decide
  have hq3 : q3 = (CMD_DRIVE_FWD_FULL,
      ⟨SPIFollowerState_t.WaitingForCommand, CMD_DRIVE_FWD_FULL, false⟩) := rfl
  have hp3 : p3 = (⟨false, 0xFF⟩, []) := by
    show RunCommandRetrievePoll p2.1 q3.1 = _
    rw [hp2, hq3]
    decide
  refine ⟨rfl, by rw [hp1], rfl, by rw [hp2], by rw [hp3], rfl, rfl, rfl⟩

/-- Witness for C1 at the reset poller state. -/
theorem C1_fwd_full_scenario_witness :
    let f0 : FollowerVars := ⟨SPIFollowerState_t.SendingNewFlag, CMD_DRIVE_FWD_FULL, true⟩
    let q1 := SPI_ISR f0
    let p1 := RunCommandRetrievePoll ⟨false, 0⟩ q1.1
    let q2 := SPI_ISR q1.2
    let p2 := RunCommandRetrievePoll p1.1 q2.1
    let q3 := SPI_ISR q2.2
    let p3 := RunCommandRetrievePoll p2.1 q3.1
    let r := runMainLogicFSM ⟨false, false⟩ MainLogicState_t.Stopped
      ⟨EventT.ES_COMMAND_RETRIEVED, CMD_DRIVE_FWD_FULL⟩
    q1.1 = 0xFF ∧ p1.2 = [] ∧
    q2.1 = CMD_DRIVE_FWD_FULL ∧
    p2.2 = [⟨EventT.ES_COMMAND_RETRIEVED, CMD_DRIVE_FWD_FULL⟩] ∧
    p3.2 = [] ∧
    r.state = MainLogicState_t.SimpleMoving ∧
    r.motor = [MotorCommandWrapper FULL_SPEED FULL_SPEED FORWARD FORWARD] ∧
    r.timers = [] :=
  C1_fwd_full_scenario true ⟨false, 0⟩ ⟨false, false⟩ rfl (by decide)

/-- Claim C2 evaluated on the code: a 1427 Hz beacon captured every 16th
edge at the 78125 Hz tick rate yields a smoothed interval of 876 ticks, for
which `CalculateFrequency` computes 5 Hz - far outside the tolerance band -
and in fact no interval value at all produces a frequency inside
[1377, 1477], so the detector can never fire. -/
theorem C2_beacon_band_unreachable :
    CalculateFrequency 876 = 5 ∧
    inBeaconBand (CalculateFrequency 876) = false ∧
    ∀ timeLapse : Nat, inBeaconBand (CalculateFrequency timeLapse) = false := by
  refine ⟨by decide, by decide, ?_⟩
  intro t
  by_cases h0 : t = 0
  · subst h0
    decide
  · have hsplit : UINT32_MOD = 2 ^ 28 * 16 := by norm_num [UINT32_MOD]
    have hmod : (t * IC_PRESCALE) % UINT32_MOD = t % 2 ^ 28 * 16 := by
      rw [hsplit, IC_PRESCALE, Nat.mul_mod_mul_right]
    simp only [CalculateFrequency, if_neg h0, hmod, PBCLK_FREQ, TIMER_PRESCALE]
    have hdiv : (20000000 : Nat) / 256 = 78125 := by norm_num
    rw [hdiv]
    rcases Nat.lt_or_ge (t % 2 ^ 28) 4 with hj | hj
    · interval_cases h : t % 2 ^ 28 <;> decide
    · have h64 : (64 : Nat) ≤ t % 2 ^ 28 * 16 := by omega
      have hle : 78125 / (t % 2 ^ 28 * 16) ≤ 78125 / 64 :=
        Nat.div_le_div_left h64 (by norm_num)
      have : 78125 / (t % 2 ^ 28 * 16) ≤ 1220 := by
        calc 78125 / (t % 2 ^ 28 * 16) ≤ 78125 / 64 := hle
          _ = 1220 := by norm_num
      simp only [inBeaconBand, TARGET_BEACON_FREQ, BEACON_FREQ_TOLERANCE,
        decide_eq_false_iff_not, not_and]
      intro hlo
      omega

/-- Claim C3 evaluated at the failing input: a search-for-tape command
dispatched in `Stopped` with the tape sensor low starts the full-speed
forward drive and enters `SearchingForTape`, but arms no timer at all (the
`ES_Timer_InitTimer(TAPE_SEARCH_TIMER, TAPE_SEARCH_MS)` call is commented
out in the source), contradicting the long-timeout requirement. -/
theorem C3_search_tape_arms_no_timer (env : Env) (htape : env.tapePin = false) :
    (runMainLogicFSM env MainLogicState_t.Stopped
      ⟨EventT.ES_COMMAND_RETRIEVED, CMD_SEARCH_TAPE⟩).state =
      MainLogicState_t.SearchingForTape ∧
    (runMainLogicFSM env MainLogicState_t.Stopped
      ⟨EventT.ES_COMMAND_RETRIEVED, CMD_SEARCH_TAPE⟩).motor =
      [MotorCommandWrapper FULL_SPEED FULL_SPEED FORWARD FORWARD] ∧
    (runMainLogicFSM env MainLogicState_t.Stopped
      ⟨EventT.ES_COMMAND_RETRIEVED, CMD_SEARCH_TAPE⟩).timers = [] := by
  obtain ⟨b, t⟩ := env
  simp only at htape
  subst htape
  cases b <;> decide

/-- Witness for C3 with both sensors low. -/
theorem C3_search_tape_arms_no_timer_witness :
    (runMainLogicFSM ⟨false, false⟩ MainLogicState_t.Stopped
      ⟨EventT.ES_COMMAND_RETRIEVED, CMD_SEARCH_TAPE⟩).timers = [] :=
  (C3_search_tape_arms_no_timer ⟨false, false⟩ rfl).2.2

/-- Claim C7 fails as stated: for previous smoothed value 2^31 and delta 0
the code computes `((0 + 5 * 2^31) mod 2^32) / 6 = 357913941`, not the
unreduced `(0 + 5 * 2^31) / 6 = 1789569706` the claim asserts. -/
theorem C7_counterexample : ¬ C7ClaimStatement := by
  intro h
  have h3 := h.2.2 (2 ^ 31) 0
  have hcode : smoothUpdate false (2 ^ 31) 0 = 357913941 := by decide
  exact absurd (hcode.symm.trans h3) (by decide)

/-- Claim C7 (amended): the two-branch subtraction equals the mod-2^32
difference for all 32-bit timestamps; the first sample seeds the smoothed
interval with the raw delta; every later sample updates it to
`((delta + 5 * previous) mod 2^32) / 6`, the sum being 32-bit arithmetic. -/
theorem C7_amended_delta_and_smoothing :
    (∀ cur prev : Nat, cur < UINT32_MOD → prev < UINT32_MOD →
      twoBranchTimeLapse cur prev = (cur + (UINT32_MOD - prev)) % UINT32_MOD) ∧
    (∀ smoothed timeLapse : Nat, smoothUpdate true smoothed timeLapse = timeLapse) ∧
    (∀ smoothed timeLapse : Nat,
      smoothUpdate false smoothed timeLapse =
        ((timeLapse + 5 * smoothed) % UINT32_MOD) / 6) := by
  refine ⟨?_, fun s t => rfl, fun s t => rfl⟩
  intro cur prev hc hp
  have hm : UINT32_MOD = 4294967296 := by norm_num [UINT32_MOD]
  rw [hm] at hc hp ⊢
  simp only [twoBranchTimeLapse, TIMER_MAX_PERIOD]
  split
  · omega
  · omega

/-- Witness for the amended C7: a wrapped pair of timestamps. -/
theorem C7_amended_delta_and_smoothing_witness :
    twoBranchTimeLapse 5 10 = (5 + (UINT32_MOD - 10)) % UINT32_MOD :=
  C7_amended_delta_and_smoothing.1 5 10 (by decide) (by decide)

/-- Claim C8 evaluated on the code: the zero-interval guard returns 0 and 0
is outside the detection band, but the nonzero interval 2^28 makes the
32-bit product `interval * 16` wrap to exactly 0, so the division's
denominator is zero there (undefined behavior in the C source),
contradicting the claim that every nonzero interval gives a nonzero
denominator. -/
theorem C8_divide_by_zero_guard_incomplete :
    CalculateFrequency 0 = 0 ∧
    inBeaconBand 0 = false ∧
    (268435456 * IC_PRESCALE) % UINT32_MOD = 0 ∧
    (268435456 : Nat) ≠ 0 := by
  decide

/-- Concrete scheduler trace refuting C6: a 45-degree rotation arms the
short timer in one `SimpleMoving` occupancy, a full-speed drive command
preempts it and re-enters `SimpleMoving` without arming a timer, and the
stale timer then expires. -/
def C6trace : List SchedStep :=
  [SchedStep.arrive ⟨EventT.ES_COMMAND_RETRIEVED, CMD_ROTATE_CW_45⟩,
   SchedStep.dispatch,
   SchedStep.arrive ⟨EventT.ES_COMMAND_RETRIEVED, CMD_DRIVE_FWD_FULL⟩,
   SchedStep.dispatch,
   SchedStep.dispatch,
   SchedStep.expireSimple]

/-- Claim C6 fails as stated: after the `C6trace` run the head of the queue
is the expiry of the timer armed in occupancy 1, the machine is in
occupancy 3 of a re-entered `SimpleMoving`, and dispatching the expiry
stops the motors and transitions to `Stopped`. -/
theorem C6_counterexample : ¬ C6ClaimStatement := by
  intro h
  have hc := h ⟨false, false⟩ C6trace ⟨EventT.ES_TIMEOUT, SIMPLE_MOVE_TIMER⟩ [] 1
    (by decide) rfl (by decide) (by decide)
  exact absurd hc.1 (by decide)

/-- Claim C6 (amended): a per-action timeout is acted upon only while the
machine occupies the state whose handler matches that timer; in any other
state its dispatch changes nothing - but a stale expiry can still act if
the same state has been re-entered by a later occupancy. -/
theorem C6_amended_timeout_outside_handler_state (env : Env)
    (s : MainLogicState_t) (e : ESEvent)
    (he : e.eventType = EventT.ES_TIMEOUT)
    (hs : timerHandlerState e.eventParam ≠ some s) :
    runMainLogicFSM env s e = mlNoop s := by
  obtain ⟨ty, par⟩ := e
  simp only at he
  subst he
  cases s
  · simp [runMainLogicFSM, mlNoop]
  · have hp : par ≠ SIMPLE_MOVE_TIMER := by
      intro hp
      exact hs (by simp [timerHandlerState, hp])
    simp [runMainLogicFSM, mlNoop, hp]
  · have hp : par ≠ TAPE_SEARCH_TIMER := by
      intro hp
      exact hs (by simp [timerHandlerState, hp, TAPE_SEARCH_TIMER, SIMPLE_MOVE_TIMER])
    simp [runMainLogicFSM, mlNoop, hp]
  · have hp : par ≠ BEACON_ALIGN_TIMER := by
      intro hp
      exact hs (by simp [timerHandlerState, hp, BEACON_ALIGN_TIMER, TAPE_SEARCH_TIMER,
        SIMPLE_MOVE_TIMER])
    simp [runMainLogicFSM, mlNoop, hp]

/-- Witness for the amended C6: a simple-move timeout delivered in
`Stopped` has no effect. -/
theorem C6_amended_timeout_outside_handler_state_witness :
    runMainLogicFSM ⟨false, false⟩ MainLogicState_t.Stopped
      ⟨EventT.ES_TIMEOUT, SIMPLE_MOVE_TIMER⟩ = mlNoop MainLogicState_t.Stopped :=
  C6_amended_timeout_outside_handler_state ⟨false, false⟩ MainLogicState_t.Stopped
    ⟨EventT.ES_TIMEOUT, SIMPLE_MOVE_TIMER⟩ rfl (by decide)

end ME218B
